import Mathlib

/-!
Verification development for the callchecker pipeline.

Shallow embedding of the status-driven call-processing pipeline:
the record lifecycle store, the dedup planner of the bulk call
downloader, the call-id prefix normalization, the dialogue builder,
the evaluation-merging arithmetic, the entity aggregation engine,
the recognition-stage record classifier and the audio cleanup gate.
Each definition is translated from the named Python source function;
remote collaborators (portal API, object storage, speech recognizer,
LLM) are modelled as explicit oracle parameters.
-/

/-- The five-member record lifecycle enum (`status_enum` in the store):
`uploaded → {recognized|empty} → fixed → ready`. -/
inductive Status where
  | uploaded
  | recognized
  | empty
  | fixed
  | ready
deriving DecidableEq, Repr

/-- Position of a status along the forward lifecycle graph.
`recognized` and `empty` sit at the same stage. -/
def statusRank : Status → Nat
  | .uploaded => 0
  | .recognized => 1
  | .empty => 1
  | .fixed => 2
  | .ready => 3

/-- The per-portal calls table, abstracted to the one column the status
claims depend on: a map from call id to the stored status (`none` when no
row with that id exists). -/
def Store : Type := String → Option Status

/-- One `INSERT ... ON CONFLICT (id) DO UPDATE` of
`upsert_records_to_db` (src/bitrix24/records_db_manager.py): insert or
update the row with this id, setting `status = 'uploaded'` in both
branches, exactly as the SQL does. -/
def upsertOne (st : Store) (id : String) : Store :=
  fun x => if x = id then some .uploaded else st x

/-- The per-record loop body of `upsert_records_to_db` applied to a whole
batch of call ids, on the success path (no store exception). -/
def upsertBatch (st : Store) (ids : List String) : Store :=
  ids.foldl upsertOne st

/-- Model of `upsert_records_to_db` with its transaction behaviour
(src/bitrix24/records_db_manager.py lines 29-107): `failAt = some k`
models a store exception raised by the k-th statement of the batch
(0-based), `none` models a clean run.  On an exception the function
rolls the transaction back (the committed store is the original one),
swallows the error and returns `[]`; on success it commits the batch and
returns the list of updated records. -/
def upsertRecordsRun (failAt : Option Nat) (st : Store) (ids : List String) :
    Store × Except Unit (List String) :=
  match failAt with
  | some k => if k < ids.length then (st, .ok []) else (upsertBatch st ids, .ok ids)
  | none => (upsertBatch st ids, .ok ids)

/-- A call record as enumerated by `get_portal_calls`
(src/bitrix24/bulk_call_downloader.py): we keep the id, the rest of the
call info rides along unchanged. -/
structure Call where
  id : String
  info : String
deriving DecidableEq, Repr

/-- The dedup planner inside `download_calls_for_portal`
(src/bitrix24/bulk_call_downloader.py lines 286-319): from the remote
calls `R`, the store ids `S` (`existing_call_ids`) and the local-file ids
`L` (`downloaded_files`), compute `final_calls` (the calls to download)
and `already_downloaded` (the calls already satisfied by a local file).
`new_calls` is the intermediate `R` minus `S`. -/
def download_calls_for_portal_plan (R : List Call) (S L : List String) :
    List Call × List Call :=
  let new_calls := R.filter (fun c => !(S.contains c.id))
  let final_calls := new_calls.filter (fun c => !(L.contains c.id))
  let already_downloaded := new_calls.filter (fun c => L.contains c.id)
  (final_calls, already_downloaded)

/-- The characters of the `call_` id prefix. -/
def callPat : List Char := ['c', 'a', 'l', 'l', '_']

/-- Model of `add_call_prefix` (src/bitrix24/bulk_call_downloader.py lines 15-19)
on id strings, as lists of characters: prepend `call_` unless the id
already starts with it. -/
def addCallPrefix (id : List Char) : List Char :=
  if callPat.isPrefixOf id then id else callPat ++ id

/-- Python's `str.replace("call_", "")`: delete every (left-to-right,
non-overlapping) occurrence of `call_`. -/
def stripCallAll : List Char → List Char
  | 'c' :: 'a' :: 'l' :: 'l' :: '_' :: rest => stripCallAll rest
  | c :: rest => c :: stripCallAll rest
  | [] => []

/-- Model of `remove_call_prefix` (src/bitrix24/bulk_call_downloader.py lines
21-25): when the id starts with `call_`, delete every occurrence of
`call_` from it (Python's `replace` is global); otherwise return it
unchanged. -/
def removeCallPrefix (id : List Char) : List Char :=
  if callPat.isPrefixOf id then stripCallAll id else id

/-- Whether `p` occurs as a contiguous substring of `s`. -/
def hasOccurrence (p : List Char) : List Char → Bool
  | [] => p.isEmpty
  | c :: rest => p.isPrefixOf (c :: rest) || hasOccurrence p rest

/-- One recognizer result (`RecognizeResponse.results[i]`): a channel, a
start time in seconds and the list of alternative transcripts. -/
structure Utt where
  channel : Nat
  start : ℚ
  alternatives : List String
deriving DecidableEq, Repr

/-- Python's `str.strip()`: drop leading and trailing whitespace. -/
def pythonStrip (s : String) : String :=
  ⟨((s.data.dropWhile Char.isWhitespace).reverse.dropWhile Char.isWhitespace).reverse⟩

/-- The text of one result: `" ".join(alternative.transcript for alternative in
result.alternatives).strip()` (src/dialog_builder.py line 25). -/
def uttText (u : Utt) : String :=
  pythonStrip (String.intercalate " " u.alternatives)

/-- Stable insertion of an utterance into a start-time-sorted list:
an element is placed before the first strictly later one, after equal
ones, matching the stability of Python's `sorted`. -/
def insertSorted (u : Utt) : List Utt → List Utt
  | [] => [u]
  | v :: rest => if u.start ≤ v.start then u :: v :: rest else v :: insertSorted u rest

/-- Model of `sorted(response.results, key=lambda r: r.start_time...)`
(src/dialog_builder.py line 21): a stable sort by start time. -/
def sortByStart (l : List Utt) : List Utt :=
  l.foldr insertSorted []

/-- The accumulation loop of `build_dialog_from_response`
(src/dialog_builder.py lines 23-43) over the `(channel, text)` pairs of
the sorted results: skip empty texts; append the text to the current
message when the channel repeats; otherwise flush the current message
and start a new one; finally flush the last message. -/
def dialogLoop : List (Nat × String) → Option (Nat × String) → List (Nat × String) →
    List (Nat × String)
  | [], cur, acc => acc ++ cur.toList
  | (ch, t) :: rest, cur, acc =>
    if t = "" then dialogLoop rest cur acc
    else
      match cur with
      | some (c, m) =>
        if ch = c then dialogLoop rest (some (c, m ++ " " ++ t)) acc
        else dialogLoop rest (some (ch, t)) (acc ++ [(c, m)])
      | none => dialogLoop rest (some (ch, t)) acc

/-- Format a merged message as `"<channel>: <text>"`
(src/dialog_builder.py line 49). -/
def formatLine (p : Nat × String) : String :=
  toString p.1 ++ ": " ++ p.2

/-- Model of `build_dialog_from_response` (src/dialog_builder.py): sort the
results by start time, run the merging loop, format one line per merged
message and join the lines with newlines. -/
def build_dialog_from_response (results : List Utt) : String :=
  let sorted := sortByStart results
  let msgs := dialogLoop (sorted.map fun u => (u.channel, uttText u)) none []
  String.intercalate "\n" (msgs.map formatLine)

/-- Helper of `mergeRuns`: absorb into the open `(c, t)` line every
immediately following pair on the same channel, then continue. -/
def mergeInto (c : Nat) (t : String) : List (Nat × String) → List (Nat × String)
  | [] => [(c, t)]
  | (c', t') :: rest =>
    if c = c' then mergeInto c (t ++ " " ++ t') rest
    else (c, t) :: mergeInto c' t' rest

/-- Modelled from the spec's reassembly algorithm (§4.5): "merge
consecutive utterances sharing the same channel into one line" — fuse
maximal runs of adjacent equal-channel pairs, joining their texts with a
space. -/
def mergeRuns : List (Nat × String) → List (Nat × String)
  | [] => []
  | (c, t) :: rest => mergeInto c t rest

/-- Modelled from the spec's reassembly algorithm (§4.5), as amended:
sort by start time, discard empty-text utterances, merge consecutive
same-channel texts, format and join. -/
def specBuildDialog (results : List Utt) : String :=
  let sorted := sortByStart results
  let ps := (sorted.map fun u => (u.channel, uttText u)).filter fun p => p.2 ≠ ""
  String.intercalate "\n" ((mergeRuns ps).map formatLine)

/-- Modelled from the spec's reassembly algorithm (§4.5), as the claim
states it (without the discard of empty-text utterances): sort by start
time, merge consecutive same-channel utterances, format and join. -/
def claimBuildDialog (results : List Utt) : String :=
  let sorted := sortByStart results
  String.intercalate "\n"
    ((mergeRuns (sorted.map fun u => (u.channel, uttText u))).map formatLine)

/-- Round a rational to the nearest integer, ties to even — the rounding
of Python's `round`. -/
def roundHalfEven (q : ℚ) : ℤ :=
  let f := ⌊q⌋
  let frac := q - f
  if frac < 1 / 2 then f
  else if 1 / 2 < frac then f + 1
  else if Even f then f else f + 1

/-- Python's `round(x, 2)`, modelled exactly over ℚ: round `100 * x`
half-to-even and divide back by 100. -/
def pythonRound2 (q : ℚ) : ℚ :=
  (roundHalfEven (100 * q) : ℚ) / 100

/-- Model of `calculate_evaluation` (src/sum_texts.py lines 6-23): drop the null
evaluations; `None` when none remain, otherwise the arithmetic mean of
the rest rounded to two decimal places. -/
def calculate_evaluation (evaluations : List (Option ℚ)) : Option ℚ :=
  let valid := evaluations.filterMap id
  if valid.isEmpty then none
  else some (pythonRound2 (valid.sum / valid.length))

/-- Model of `sum_text_blocks` (src/sum_texts.py lines 25-95).  The LLM request
together with the parsing of its reply is the oracle `llm`; an exception
raised by the request is the oracle's `.error` (a reply that fails to
parse is absorbed as `.ok ""`, exactly the function's own fallback).
Empty input yields `("", None)`; with no non-blank text the text result
is empty; with exactly one non-blank text that text is returned without
consulting the oracle; otherwise the oracle merges the texts.  The
evaluation result is always `calculate_evaluation` of all evaluations. -/
def sumTextBlocks (llm : List String → Except Unit String)
    (pairs : List (String × Option ℚ)) : Except Unit (String × Option ℚ) :=
  if pairs.isEmpty then .ok ("", none)
  else
    let texts := pairs.map Prod.fst
    let evaluations := pairs.map Prod.snd
    let non_empty_texts := texts.filter fun t => pythonStrip t ≠ ""
    match non_empty_texts with
    | [] => .ok ("", calculate_evaluation evaluations)
    | [t] => .ok (t, calculate_evaluation evaluations)
    | _ =>
      match llm non_empty_texts with
      | .ok text_result => .ok (text_result, calculate_evaluation evaluations)
      | .error e => .error e

/-- The retry loop around `sum_text_blocks` shared by
`_update_entity_data` (src/entity_summarizer.py lines 170-184) and
`_update_entity_summary` (src/entity_summary_aggregator.py lines
114-131): `for attempt in range(1, retries + 1)`, returning the first
successful merge, `.error` when every attempt raises.  The oracle is
indexed by the attempt number. -/
def retrySumFrom (llm : Nat → List String → Except Unit String)
    (pairs : List (String × Option ℚ)) : Nat → Nat → Except Unit (String × Option ℚ)
  | _, 0 => .error ()
  | attempt, n + 1 =>
    match sumTextBlocks (llm attempt) pairs with
    | .ok r => .ok r
    | .error _ => retrySumFrom llm pairs (attempt + 1) n

/-- The retry loop started at attempt 1. -/
def retrySum (llm : Nat → List String → Except Unit String)
    (retries : Nat) (pairs : List (String × Option ℚ)) : Except Unit (String × Option ℚ) :=
  retrySumFrom llm pairs 1 retries

/-- One per-call (or rolled-up) criterion result:
`{id, name, text, evaluation}`. -/
structure Criterion where
  id : Nat
  name : String
  text : String
  evaluation : Option ℚ
deriving DecidableEq, Repr

/-- The pair collection of `_update_entity_data`
(src/entity_summarizer.py lines 146-160): the entity's existing roll-up
for the criterion first (when its text is non-empty), then every
instance with a non-empty text. -/
def collectPairs (existing : Option Criterion) (instances : List Criterion) :
    List (String × Option ℚ) :=
  (match existing with
   | some e => if e.text ≠ "" then [(e.text, e.evaluation)] else []
   | none => []) ++
    instances.filterMap fun i =>
      if i.text ≠ "" then some (i.text, i.evaluation) else none

/-- The per-criterion merge of `_update_entity_data`
(src/entity_summarizer.py lines 162-192): no pairs — no new entry;
exactly one pair — copy it verbatim; otherwise merge through the retried
LLM call, falling back to empty text and null evaluation when every
attempt raises.  The result is the `final_criterion` dict built on lines
187-192, or `none` when nothing was summed. -/
def mergeCriterionEntry (llm : Nat → List String → Except Unit String)
    (retries : Nat) (cid : Nat) (defName : String)
    (existing : Option Criterion) (instances : List Criterion) : Option Criterion :=
  let pairs := collectPairs existing instances
  match pairs with
  | [] => none
  | [p] => some { id := cid, name := defName, text := p.1, evaluation := p.2 }
  | _ =>
    let fe :=
      match retrySum llm retries pairs with
      | .ok r => r
      | .error _ => ("", (none : Option ℚ))
    some { id := cid, name := defName, text := fe.1, evaluation := fe.2 }

/-- The write-back of `_update_entity_data` (src/entity_summarizer.py
lines 138-143 and 194-202) for one criterion id: find the entity's
existing entry, merge, then update it in place or append the new
entry. -/
def applyCriterionMerge (llm : Nat → List String → Except Unit String)
    (retries : Nat) (criteria : List Criterion) (cid : Nat) (defName : String)
    (instances : List Criterion) : List Criterion :=
  let existing := criteria.find? fun c => c.id = cid
  match mergeCriterionEntry llm retries cid defName existing instances with
  | none => criteria
  | some entry =>
    match existing with
    | some _ => criteria.map fun c => if c.id = cid then entry else c
    | none => criteria ++ [entry]

/-- The summary collection of `aggregate_entity_summaries`
(src/entity_summary_aggregator.py lines 58-71): the entity's own
stripped summary first when non-blank, then the stripped non-blank
summaries of its records. -/
def summariesFor (entitySummary : String) (recordSummaries : List String) :
    List String :=
  (if pythonStrip entitySummary ≠ "" then [pythonStrip entitySummary] else []) ++
    recordSummaries.filterMap fun s =>
      if pythonStrip s ≠ "" then some (pythonStrip s) else none

/-- Model of `_update_entity_summary` (src/entity_summary_aggregator.py lines
94-131): with at most one summary the entity is left as is (the caller
handles the single-summary copy); otherwise merge through the retried
LLM call, falling back to the first collected summary (or `""` for an
empty list) when every attempt raises. -/
def updateEntitySummary (llm : Nat → List String → Except Unit String)
    (retries : Nat) (oldSummary : String) (summaries : List String) : String :=
  if summaries.length ≤ 1 then oldSummary
  else
    match retrySum llm retries (summaries.map fun s => (s, none)) with
    | .ok r => r.1
    | .error _ => summaries.headD ""

/-- The audio metadata attached to a record, with each field optional the
way a JSON blob's keys are.  Channel count and sample rate are numbers,
uri and encoding are strings. -/
structure AudioMetadata where
  uri : Option String
  encoding : Option String
  num_channels : Option Nat
  sample_rate_hertz : Option Nat
deriving DecidableEq, Repr

/-- The completeness check of `process_record`
(src/dialogue_recognizer.py line 18): `not uri or not encoding or
num_channels is None or not sample_rate_hertz` — a missing or empty uri
or encoding, a missing channel count, or a missing or zero sample
rate. -/
def metadataIncomplete (m : AudioMetadata) : Bool :=
  (match m.uri with | none => true | some s => s = "") ||
  (match m.encoding with | none => true | some s => s = "") ||
  (m.num_channels == none) ||
  (match m.sample_rate_hertz with | none => true | some n => n = 0)

/-- A record as seen by the recognition stage: id, audio metadata, the
dialogue slot and the lifecycle status. -/
structure RecRecord where
  id : String
  audio_metadata : AudioMetadata
  dialogue : Option String
  status : Status
deriving DecidableEq, Repr

/-- Model of `process_record` (src/dialogue_recognizer.py lines 10-56).  The
speech-recognition collaborator is the oracle `recognize`; an exception
it raises (or a falsy response) is the oracle's `.error`.  Incomplete
metadata or a failed recognition skips the record (`None`, nothing
written); otherwise the transcript is rebuilt and the record comes back
with status `empty` when the transcript is empty and `recognized`
otherwise. -/
def process_record (recognize : Except Unit (List Utt)) (r : RecRecord) :
    Option RecRecord :=
  if metadataIncomplete r.audio_metadata then none
  else
    match recognize with
    | .error _ => none
    | .ok raw =>
      let dialogue := build_dialog_from_response raw
      if dialogue = "" then
        some { r with dialogue := some "", status := .empty }
      else
        some { r with dialogue := some dialogue, status := .recognized }

/-- The `success_rate` of `update_records_in_database`
(src/bitrix24/records_db_manager.py line 144):
`len(updated_records) / len(records) if records else 0`. -/
def successRate (total updated : Nat) : ℚ :=
  if total = 0 then 0 else (updated : ℚ) / (total : ℚ)

/-- The portal loop of `cleanup_audio_files_after_db_upload`
(src/bitrix24/audio_cleanup.py lines 39-46): a portal's local audio
directory is cleaned exactly when its reported success rate equals
`1.0`.  Input: the `db_stats_dict`, abstracted to portal name and
success rate; output: the portals whose files get deleted. -/
def cleanedPortals (stats : List (String × ℚ)) : List String :=
  (stats.filter fun p => p.2 == 1).map Prod.fst

/-- The dialogues table as the dialogue-stage UPDATE sees it: id to
(dialogue, summary, status). -/
def DialogStore : Type := String → Option (String × String × Status)

/-- A row of the VALUES list built by `upload_recognized_dialogs`
(src/db_dialog_uploader.py lines 30-38). -/
structure DialogRow where
  id : String
  dialogue : String
  summary : String
  status : Status
deriving DecidableEq, Repr

/-- One row of the `UPDATE ... FROM (VALUES %s)` of
`upload_recognized_dialogs`: only an existing row with this id is
updated. -/
def updateDialogOne (st : DialogStore) (r : DialogRow) : DialogStore :=
  fun x => if x = r.id then (st x).map fun _ => (r.dialogue, r.summary, r.status) else st x

/-- Model of `upload_recognized_dialogs` (src/db_dialog_uploader.py lines 22-64)
at transaction granularity: `failAt = some k` models a store exception
raised by the k-th update of the batch, `none` a clean run.  On an
exception the transaction is rolled back and the exception is re-raised
(`.error`); on success the batch is committed. -/
def uploadRecognizedDialogsRun (failAt : Option Nat) (st : DialogStore)
    (rows : List DialogRow) : DialogStore × Except Unit Unit :=
  match failAt with
  | some k => if k < rows.length then (st, .error ()) else (rows.foldl updateDialogOne st, .ok ())
  | none => (rows.foldl updateDialogOne st, .ok ())

/-- The last row of a dialogue batch carrying a given id: the rows are
applied in order, so the last one determines the committed value (in the
pipeline each batch carries each record id at most once). -/
def lastRowFor (id : String) : List DialogRow → Option DialogRow
  | [] => none
  | r :: rest =>
    match lastRowFor id rest with
    | some r2 => some r2
    | none => if r.id = id then some r else none

/-- Shape of a record's `data` blob as `upload_records_from_dict`
(src/db_data_uploader.py lines 32-58) inspects it: `data` missing or
falsy; `data` present but its `criteria` absent or not a list; or a
criteria list, each criterion abstracted to the list of keys it
carries. -/
inductive RecData where
  | noData
  | noCriteriaList
  | criteria (entries : List (List String))
deriving DecidableEq, Repr

/-- A record as the fix/ready-stage uploader sees it: id plus the shape
of its `data`. -/
structure DataRecord where
  id : String
  data : RecData
deriving DecidableEq, Repr

/-- The required criterion fields of `upload_records_from_dict`
(src/db_data_uploader.py line 25). -/
def required_fields : List String := ["name", "text", "evaluation"]

/-- The completeness check of `upload_records_from_dict`
(src/db_data_uploader.py lines 54-58): every criterion carries every
required field (vacuously true of an empty criteria list, as in the
Python). -/
def allCriteriaOk (entries : List (List String)) : Bool :=
  entries.all fun crit => required_fields.all fun f => crit.contains f

/-- One iteration of the record loop of `upload_records_from_dict`
(src/db_data_uploader.py lines 32-76), at status granularity: missing or
falsy `data` — skip; `criteria` absent or not a list, or some criterion
incomplete — `UPDATE` of `data` only, status untouched; all criteria
complete — `UPDATE ... SET data = %s, status = %s WHERE id = %s`, which
writes the status argument to the existing row with this id and creates
nothing. -/
def uploadRecordOne (status : Status) (st : Store) (r : DataRecord) : Store :=
  match r.data with
  | .noData => st
  | .noCriteriaList => st
  | .criteria entries =>
    if allCriteriaOk entries then
      fun x => if x = r.id then (st x).map fun _ => status else st x
    else st

/-- Model of `upload_records_from_dict` (src/db_data_uploader.py lines
6-79) at status granularity: the per-record loop over one table's
records, committed at the end of a clean run. -/
def upload_records_from_dict (status : Status) (st : Store)
    (records : List DataRecord) : Store :=
  records.foldl (uploadRecordOne status) st

/-- Whether one record makes `upload_records_from_dict` touch the status
column: its `data` carries a criteria list whose entries all have the
required fields. -/
def writesStatus (r : DataRecord) : Bool :=
  match r.data with
  | .criteria entries => allCriteriaOk entries
  | _ => false

/-! Helper lemmas for the call-id prefix utilities. -/

/-- A list is a Boolean prefix of itself extended by anything. -/
theorem isPrefixOf_append_self (p s : List Char) : p.isPrefixOf (p ++ s) = true := by
  induction p with
  | nil => simp [List.isPrefixOf]
  | cons c rest ih => simp [List.isPrefixOf, ih]

/-- When `call_` occurs nowhere in `s`, it is in particular not a prefix
of `s`. -/
theorem not_prefix_of_no_occurrence {s : List Char}
    (h : hasOccurrence callPat s = false) : callPat.isPrefixOf s = false := by
  cases s with
  | nil => rfl
  | cons c rest =>
    simp only [hasOccurrence, Bool.or_eq_false_iff] at h
    exact h.1

/-- Deleting occurrences of `call_` steps over a character that does not
begin one. -/
theorem stripCallAll_cons_skip {c : Char} {rest : List Char}
    (h : callPat.isPrefixOf (c :: rest) = false) :
    stripCallAll (c :: rest) = c :: stripCallAll rest := by
  rw [stripCallAll.eq_def]
  split
  · next rest2 heq =>
    cases heq
    simp [callPat, List.isPrefixOf] at h
  · next x c2 rest2 hconstr heq =>
    cases heq
    rfl
  · next heq =>
    cases heq

/-- When `call_` occurs nowhere in `s`, deleting all its occurrences is
the identity. -/
theorem stripCallAll_of_no_occurrence :
    ∀ {s : List Char}, hasOccurrence callPat s = false → stripCallAll s = s := by
  intro s
  induction s with
  | nil => intro _; rfl
  | cons c rest ih =>
    intro h
    simp only [hasOccurrence, Bool.or_eq_false_iff] at h
    rw [stripCallAll_cons_skip h.1, ih h.2]

/-- Deleting occurrences of `call_` from `call_ ++ s` first deletes the
leading occurrence. -/
theorem stripCallAll_callPat_append (s : List Char) :
    stripCallAll (callPat ++ s) = stripCallAll s := rfl

/-- C10 counterexample: the round-trip claim fails as stated.  The id
`call_1` does not contain `call_` in its interior (no occurrence at any
position past the first character), yet
`remove_call_prefix(add_call_prefix("call_1"))` is `"1"`, not
`"call_1"`: `add_call_prefix` leaves the already-prefixed id unchanged
and `remove_call_prefix` deletes its leading `call_`. -/
theorem C10_roundtrip_cex :
    hasOccurrence callPat (("call_1".toList).drop 1) = false ∧
    removeCallPrefix (addCallPrefix "call_1".toList) = "1".toList ∧
    removeCallPrefix (addCallPrefix "call_1".toList) ≠ "call_1".toList := by
  refine ⟨by decide, by decide, by decide⟩

/-- C10 (amended): `add_call_prefix` is idempotent, and for every id
that does not contain the substring `call_` anywhere (not merely in its
interior), `remove_call_prefix (add_call_prefix id) = id`. -/
theorem C10_prefix_roundtrip (id : List Char) :
    addCallPrefix (addCallPrefix id) = addCallPrefix id ∧
    (hasOccurrence callPat id = false →
      removeCallPrefix (addCallPrefix id) = id) := by
  constructor
  · by_cases h : callPat.isPrefixOf id = true
    · simp [addCallPrefix, h]
    · simp only [addCallPrefix, h, if_neg, Bool.not_eq_true] at *
      simp [h, isPrefixOf_append_self]
  · intro h
    have hp : callPat.isPrefixOf id = false := not_prefix_of_no_occurrence h
    rw [addCallPrefix, hp]
    simp only [Bool.false_eq_true, if_false]
    rw [removeCallPrefix, isPrefixOf_append_self]
    simp only [if_true]
    rw [stripCallAll_callPat_append, stripCallAll_of_no_occurrence h]

/-- C10 witness: the round trip on the plain numeric id `493125`. -/
theorem C10_prefix_roundtrip_witness :
    removeCallPrefix (addCallPrefix "493125".toList) = "493125".toList :=
  (C10_prefix_roundtrip "493125".toList).2 (by decide)

/-- C1: dedup planner correctness.  For every remote call list `R`,
store id set `S` and local-file id set `L`, a call is in the planner's
needs-download output (`final_calls`) exactly when it is remote, not in
the store and not on disk (`R \ S \ L`); it is in the already-satisfied
output (`already_downloaded`) exactly when it is remote and on disk but
not in the store (`(R ∩ L) \ S`); and both outputs only ever contain
calls of `R`. -/
theorem C1_dedup_planner (R : List Call) (S L : List String) (c : Call) :
    (c ∈ (download_calls_for_portal_plan R S L).1 ↔
      c ∈ R ∧ c.id ∉ S ∧ c.id ∉ L) ∧
    (c ∈ (download_calls_for_portal_plan R S L).2 ↔
      c ∈ R ∧ c.id ∈ L ∧ c.id ∉ S) ∧
    (c ∈ (download_calls_for_portal_plan R S L).1 → c ∈ R) ∧
    (c ∈ (download_calls_for_portal_plan R S L).2 → c ∈ R) := by
  simp only [download_calls_for_portal_plan, List.mem_filter,
    List.contains, List.elem_eq_mem, Bool.not_eq_true',
    decide_eq_false_iff_not, decide_eq_true_eq]
  constructor
  · tauto
  · constructor
    · tauto
    · constructor <;> tauto

/-- C1 witness: with remote calls `1, 2, 3`, store `{2}` and disk `{3}`,
call `1` needs download and call `3` is already satisfied. -/
theorem C1_dedup_planner_witness :
    (⟨"1", "x"⟩ : Call) ∈
      (download_calls_for_portal_plan
        [⟨"1", "x"⟩, ⟨"2", "y"⟩, ⟨"3", "z"⟩] ["2"] ["3"]).1 ∧
    (⟨"3", "z"⟩ : Call) ∈
      (download_calls_for_portal_plan
        [⟨"1", "x"⟩, ⟨"2", "y"⟩, ⟨"3", "z"⟩] ["2"] ["3"]).2 :=
  ⟨((C1_dedup_planner [⟨"1", "x"⟩, ⟨"2", "y"⟩, ⟨"3", "z"⟩] ["2"] ["3"]
      ⟨"1", "x"⟩).1).mpr ⟨by decide, by decide, by decide⟩,
   ((C1_dedup_planner [⟨"1", "x"⟩, ⟨"2", "y"⟩, ⟨"3", "z"⟩] ["2"] ["3"]
      ⟨"3", "z"⟩).2.1).mpr ⟨by decide, by decide, by decide⟩⟩

/-- What the acquisition upsert does to any id: everything in the batch
ends at status `uploaded`, everything else keeps its stored status. -/
theorem upsertBatch_apply :
    ∀ (ids : List String) (st : Store) (id : String),
      upsertBatch st ids id = if id ∈ ids then some .uploaded else st id := by
  intro ids
  induction ids with
  | nil => intro st id; simp [upsertBatch]
  | cons a rest ih =>
    intro st id
    show upsertBatch (upsertOne st a) rest id = _
    rw [ih]
    by_cases hr : id ∈ rest
    · simp [hr]
    · by_cases ha : id = a
      · simp [hr, ha, upsertOne]
      · simp [hr, ha, upsertOne, List.mem_cons]

/-- C2 counterexample: the acquisition upsert of a record that already
exists in the store does regress its status.  With `call_1` stored at
`recognized`, re-upserting `call_1` leaves it at `uploaded`, a strictly
earlier stage. -/
theorem C2_status_regression_cex :
    upsertBatch (fun x => if x = "call_1" then some .recognized else none)
      ["call_1"] "call_1" = some .uploaded ∧
    statusRank .uploaded < statusRank .recognized := by
  refine ⟨rfl, by decide⟩

/-- What the dialogue uploader writes: one batch of `UPDATE` rows,
applied in order, leaves an id absent from the rows untouched, never
creates a row, and sets an existing row's dialogue, summary and status
to exactly the fields carried by the (last) row with that id — the
input status is copied as is, the current status is never read. -/
theorem updateDialogBatch_apply :
    ∀ (rows : List DialogRow) (st : DialogStore) (id : String),
      (rows.foldl updateDialogOne st) id =
        match lastRowFor id rows with
        | some r => (st id).map fun _ => (r.dialogue, r.summary, r.status)
        | none => st id := by
  intro rows
  induction rows with
  | nil => intro st id; rfl
  | cons r rest ih =>
    intro st id
    show (rest.foldl updateDialogOne (updateDialogOne st r)) id = _
    rw [ih]
    cases hlast : lastRowFor id rest with
    | some r2 =>
      simp only [lastRowFor, hlast]
      by_cases hid : id = r.id
      · have hone : updateDialogOne st r id =
            (st id).map fun _ => (r.dialogue, r.summary, r.status) := by
          simp [updateDialogOne, hid]
        rw [hone, Option.map_map]
        rfl
      · simp [updateDialogOne, hid]
    | none =>
      simp only [lastRowFor, hlast]
      by_cases hid : r.id = id
      · simp [updateDialogOne, hid]
      · have hid2 : ¬ id = r.id := fun h => hid h.symm
        simp [updateDialogOne, hid, hid2]

/-- What one record makes the fix/ready uploader write: the status
argument onto the existing row with the record's id when its criteria
are complete, nothing otherwise — the current status is never read. -/
theorem uploadRecordOne_apply (status : Status) (st : Store) (r : DataRecord)
    (id : String) :
    uploadRecordOne status st r id =
      if r.id = id ∧ writesStatus r = true then (st id).map fun _ => status
      else st id := by
  cases hd : r.data with
  | noData => simp [uploadRecordOne, writesStatus, hd]
  | noCriteriaList => simp [uploadRecordOne, writesStatus, hd]
  | criteria entries =>
    by_cases hok : allCriteriaOk entries = true
    · by_cases hid : r.id = id
      · simp [uploadRecordOne, writesStatus, hd, hok, hid]
      · have hid2 : ¬ id = r.id := fun h => hid h.symm
        simp [uploadRecordOne, writesStatus, hd, hok, hid, hid2]
    · simp [uploadRecordOne, writesStatus, hd, hok]

/-- What the fix/ready uploader writes over a whole batch: an id gets
the status argument exactly when some record with that id has complete
criteria and the row exists; every other id is untouched. -/
theorem upload_records_from_dict_apply :
    ∀ (records : List DataRecord) (status : Status) (st : Store) (id : String),
      upload_records_from_dict status st records id =
        if records.any (fun r => decide (r.id = id) && writesStatus r) = true then
          (st id).map fun _ => status
        else st id := by
  intro records
  induction records with
  | nil => intro status st id; simp [upload_records_from_dict]
  | cons r rest ih =>
    intro status st id
    show upload_records_from_dict status (uploadRecordOne status st r) rest id = _
    rw [ih, uploadRecordOne_apply]
    by_cases hr : r.id = id ∧ writesStatus r = true
    · have hhead : (decide (r.id = id) && writesStatus r) = true := by
        simp [hr.1, hr.2]
      rw [if_pos hr]
      simp only [List.any_cons, hhead, Bool.true_or]
      by_cases hrest :
          (rest.any fun r => decide (r.id = id) && writesStatus r) = true <;>
        cases hst : st id <;> simp [hrest, hst]
    · have hhead : (decide (r.id = id) && writesStatus r) = false := by
        rcases not_and_or.mp hr with h | h
        · simp [h]
        · cases hws : writesStatus r with
          | false => simp
          | true => exact absurd hws h
      rw [if_neg hr]
      simp [List.any_cons, hhead]

/-- C2 (amended): no status writer consults a record's current status.
The acquisition upsert unconditionally sets every record in its batch to
`uploaded` — regressing a record already past `uploaded` — and leaves
records outside the batch untouched; the recognition uploader writes to
each existing row exactly the status carried by its input row, touching
no other row and creating none; the analysis/aggregation uploader writes
exactly its status argument to existing records with complete criteria
data and leaves status untouched otherwise.  Forward-only progression is
therefore a property of what the callers feed these writers (the dedup
planner keeps stored ids out of the upsert batch; the recognizer feeds
`recognized`/`empty`), not of the store operations themselves. -/
theorem C2_status_writers (st stf : Store) (dst : DialogStore)
    (ids : List String) (rows : List DialogRow) (records : List DataRecord)
    (status : Status) (id : String) :
    (id ∈ ids → upsertBatch st ids id = some .uploaded) ∧
    (id ∉ ids → upsertBatch st ids id = st id) ∧
    ((rows.foldl updateDialogOne dst) id =
      match lastRowFor id rows with
      | some r => (dst id).map fun _ => (r.dialogue, r.summary, r.status)
      | none => dst id) ∧
    (upload_records_from_dict status stf records id =
      if records.any (fun r => decide (r.id = id) && writesStatus r) = true then
        (stf id).map fun _ => status
      else stf id) := by
  refine ⟨?_, ?_, updateDialogBatch_apply rows dst id,
    upload_records_from_dict_apply records status stf id⟩
  · intro h; rw [upsertBatch_apply]; simp [h]
  · intro h; rw [upsertBatch_apply]; simp [h]

/-- C2 witness: upserting the fresh id `a` over an empty store sets it
to `uploaded` and leaves the absent id `b` absent; the dialogue uploader
copies the row status `recognized` onto an existing `uploaded` row; the
fix/ready uploader writes its `ready` argument onto an existing `fixed`
row with complete criteria. -/
theorem C2_status_writers_witness :
    upsertBatch (fun _ => none) ["a"] "a" = some .uploaded ∧
    upsertBatch (fun _ => none) ["a"] "b" = none ∧
    ([⟨"a", "d", "s", Status.recognized⟩] : List DialogRow).foldl updateDialogOne
        (fun x => if x = "a" then some ("", "", Status.uploaded) else none) "a" =
      some ("d", "s", Status.recognized) ∧
    upload_records_from_dict Status.ready
        (fun x => if x = "a" then some Status.fixed else none)
        [⟨"a", .criteria [["name", "text", "evaluation"]]⟩] "a" =
      some Status.ready :=
  ⟨(C2_status_writers (fun _ => none) (fun _ => none) (fun _ => none)
      ["a"] [] [] Status.ready "a").1 (by decide),
   (C2_status_writers (fun _ => none) (fun _ => none) (fun _ => none)
      ["a"] [] [] Status.ready "b").2.1 (by decide),
   ((C2_status_writers (fun _ => none) (fun _ => none)
      (fun x => if x = "a" then some ("", "", Status.uploaded) else none)
      [] [⟨"a", "d", "s", Status.recognized⟩] [] Status.ready "a").2.2.1).trans
     (by decide),
   ((C2_status_writers (fun _ => none)
      (fun x => if x = "a" then some Status.fixed else none) (fun _ => none)
      [] [] [⟨"a", .criteria [["name", "text", "evaluation"]]⟩]
      Status.ready "a").2.2.2).trans (by decide)⟩

/-- Skipping an empty-text utterance in the merging loop. -/
theorem dialogLoop_cons_empty (ch : Nat) (rest : List (Nat × String))
    (cur : Option (Nat × String)) (acc : List (Nat × String)) :
    dialogLoop ((ch, "") :: rest) cur acc = dialogLoop rest cur acc := by
  simp [dialogLoop]

/-- A non-empty text on the open message's channel gets appended to it. -/
theorem dialogLoop_cons_same {t : String} (ht : t ≠ "") (ch : Nat) (m : String)
    (rest : List (Nat × String)) (acc : List (Nat × String)) :
    dialogLoop ((ch, t) :: rest) (some (ch, m)) acc =
      dialogLoop rest (some (ch, m ++ " " ++ t)) acc := by
  simp [dialogLoop, ht]

/-- A non-empty text on another channel flushes the open message. -/
theorem dialogLoop_cons_diff {ch c : Nat} {t : String} (ht : t ≠ "") (h : ch ≠ c)
    (m : String) (rest : List (Nat × String)) (acc : List (Nat × String)) :
    dialogLoop ((ch, t) :: rest) (some (c, m)) acc =
      dialogLoop rest (some (ch, t)) (acc ++ [(c, m)]) := by
  simp [dialogLoop, ht, h]

/-- A non-empty text with no open message opens one. -/
theorem dialogLoop_cons_none {ch : Nat} {t : String} (ht : t ≠ "")
    (rest : List (Nat × String)) (acc : List (Nat × String)) :
    dialogLoop ((ch, t) :: rest) none acc = dialogLoop rest (some (ch, t)) acc := by
  simp [dialogLoop, ht]

/-- The empty-text filter drops an empty head. -/
theorem filterNonEmpty_cons_empty (ch : Nat) (rest : List (Nat × String)) :
    ((ch, "") :: rest).filter (fun p => p.2 ≠ "") =
      rest.filter (fun p => p.2 ≠ "") := by
  simp [List.filter_cons]

/-- The empty-text filter keeps a non-empty head. -/
theorem filterNonEmpty_cons_pos {t : String} (ht : t ≠ "") (ch : Nat)
    (rest : List (Nat × String)) :
    ((ch, t) :: rest).filter (fun p => p.2 ≠ "") =
      (ch, t) :: rest.filter (fun p => p.2 ≠ "") := by
  simp [List.filter_cons, ht]

/-- Run-merging absorbs a head on the same channel. -/
theorem mergeInto_cons_same (c : Nat) (t t' : String) (rest : List (Nat × String)) :
    mergeInto c t ((c, t') :: rest) = mergeInto c (t ++ " " ++ t') rest := by
  simp [mergeInto]

/-- Run-merging closes the line at a channel switch. -/
theorem mergeInto_cons_diff {c c' : Nat} (h : c ≠ c') (t t' : String)
    (rest : List (Nat × String)) :
    mergeInto c t ((c', t') :: rest) = (c, t) :: mergeInto c' t' rest := by
  simp [mergeInto, h]

/-- The merging loop with an open message equals the accumulator plus the
run-merged remainder (empty texts discarded), the open message absorbed
into the first run. -/
theorem dialogLoop_some :
    ∀ (ps : List (Nat × String)) (c : Nat) (m : String) (acc : List (Nat × String)),
      dialogLoop ps (some (c, m)) acc =
        acc ++ mergeInto c m (ps.filter fun p => p.2 ≠ "") := by
  intro ps
  induction ps with
  | nil => intro c m acc; simp [dialogLoop, mergeInto]
  | cons p rest ih =>
    intro c m acc
    obtain ⟨ch, t⟩ := p
    by_cases ht : t = ""
    · subst ht
      rw [dialogLoop_cons_empty, ih, filterNonEmpty_cons_empty]
    · rw [filterNonEmpty_cons_pos ht]
      by_cases hch : ch = c
      · subst hch
        rw [dialogLoop_cons_same ht, ih, mergeInto_cons_same]
      · rw [dialogLoop_cons_diff ht hch, ih,
          mergeInto_cons_diff (fun hcc => hch hcc.symm), List.append_assoc,
          List.singleton_append]

/-- The merging loop started with no open message computes the
run-merging of the non-empty-text pairs. -/
theorem dialogLoop_none :
    ∀ (ps : List (Nat × String)) (acc : List (Nat × String)),
      dialogLoop ps none acc = acc ++ mergeRuns (ps.filter fun p => p.2 ≠ "") := by
  intro ps
  induction ps with
  | nil => intro acc; simp [dialogLoop, mergeRuns]
  | cons p rest ih =>
    intro acc
    obtain ⟨ch, t⟩ := p
    by_cases ht : t = ""
    · subst ht
      rw [dialogLoop_cons_empty, ih, filterNonEmpty_cons_empty]
    · rw [filterNonEmpty_cons_pos ht, dialogLoop_cons_none ht, dialogLoop_some]
      rfl

/-- C4 counterexample: the claim's reassembly algorithm — sort, merge
consecutive same-channel utterances, one line per merged run — disagrees
with the code on an utterance whose transcript strips to empty: the code
silently discards it and merges the channel-0 run across the interleaved
channel-1 utterance, producing one line where the claim's algorithm
produces three. -/
theorem C4_dialog_cex :
    build_dialog_from_response
        [⟨0, 1, ["a"]⟩, ⟨1, 2, [""]⟩, ⟨0, 3, ["c"]⟩] = "0: a c" ∧
    claimBuildDialog
        [⟨0, 1, ["a"]⟩, ⟨1, 2, [""]⟩, ⟨0, 3, ["c"]⟩] = "0: a\n1: \n0: c" ∧
    build_dialog_from_response
        [⟨0, 1, ["a"]⟩, ⟨1, 2, [""]⟩, ⟨0, 3, ["c"]⟩] ≠
      claimBuildDialog [⟨0, 1, ["a"]⟩, ⟨1, 2, [""]⟩, ⟨0, 3, ["c"]⟩] :=
  ⟨by decide, by decide, by decide⟩

/-- C4 (amended): the builder sorts utterances by start time, discards
utterances whose stripped transcript is empty, merges consecutive
remaining utterances sharing the same channel into one line, and emits
one `"<channel>: <text>"` line per merged run in chronological order
joined by newlines; the two cited examples reconstruct as claimed. -/
theorem C4_dialog_reconstruction :
    (∀ results : List Utt,
      build_dialog_from_response results = specBuildDialog results) ∧
    build_dialog_from_response
        [⟨0, 1, ["a"]⟩, ⟨1, 2, ["b"]⟩, ⟨0, 3, ["c"]⟩] = "0: a\n1: b\n0: c" ∧
    build_dialog_from_response [⟨0, 1, ["a"]⟩, ⟨0, 2, ["b"]⟩] = "0: a b" := by
  refine ⟨?_, by decide, by decide⟩
  intro results
  show String.intercalate "\n"
      ((dialogLoop ((sortByStart results).map fun u => (u.channel, uttText u))
        none []).map formatLine) = _
  rw [dialogLoop_none]
  rfl

/-- Half-to-even rounding moves a rational by at most one half. -/
theorem roundHalfEven_close (q : ℚ) : |(roundHalfEven q : ℚ) - q| ≤ 1 / 2 := by
  have h0 : (⌊q⌋ : ℚ) ≤ q := Int.floor_le q
  have h1 : q < ⌊q⌋ + 1 := Int.lt_floor_add_one q
  simp only [roundHalfEven]
  split_ifs with hf hg he
  · rw [abs_sub_comm, abs_of_nonneg (by linarith)]
    linarith
  · rw [abs_of_nonneg (by push_cast; linarith)]
    push_cast
    linarith
  · have htie : q - ⌊q⌋ = 1 / 2 := le_antisymm (not_lt.1 hg) (not_lt.1 hf)
    rw [abs_sub_comm, abs_of_nonneg (by linarith)]
    linarith
  · have htie : q - ⌊q⌋ = 1 / 2 := le_antisymm (not_lt.1 hg) (not_lt.1 hf)
    rw [abs_of_nonneg (by push_cast; linarith)]
    push_cast
    linarith

/-- Rounding to two decimal places moves a rational by at most 1/200. -/
theorem pythonRound2_close (q : ℚ) : |pythonRound2 q - q| ≤ 1 / 200 := by
  have h := roundHalfEven_close (100 * q)
  rw [pythonRound2,
    show (roundHalfEven (100 * q) : ℚ) / 100 - q =
      ((roundHalfEven (100 * q) : ℚ) - 100 * q) / 100 from by ring,
    abs_div, show |(100 : ℚ)| = 100 from by norm_num]
  linarith

/-- C5 counterexample: the merged evaluation is not the arithmetic mean.
For evaluations `1, 2, 2` the code stores `round(5/3, 2) = 1.67`, which
differs from the mean `5/3`. -/
theorem C5_merge_mean_cex :
    calculate_evaluation [some 1, some 2, some 2] = some (167 / 100) ∧
    ((167 : ℚ) / 100) ≠ (1 + 2 + 2) / 3 := by
  constructor
  · have h : ([some (1 : ℚ), some 2, some 2].filterMap id) = [1, 2, 2] := rfl
    rw [calculate_evaluation, h]
    norm_num [pythonRound2, roundHalfEven]
  · norm_num

/-- C5 (amended): the merged numeric evaluation is the arithmetic mean
of the non-null evaluations rounded to two decimal places (hence always
within 1/200 of the exact mean), and is null exactly when every
evaluation is null; the cited examples evaluate to `4.5` and null. -/
theorem C5_merge_arithmetic :
    (∀ evals : List (Option ℚ),
      (calculate_evaluation evals = none ↔ evals.filterMap id = []) ∧
      (evals.filterMap id ≠ [] →
        calculate_evaluation evals =
          some (pythonRound2
            ((evals.filterMap id).sum / (evals.filterMap id).length)) ∧
        ∀ r, calculate_evaluation evals = some r →
          |r - (evals.filterMap id).sum / (evals.filterMap id).length| ≤ 1 / 200)) ∧
    calculate_evaluation [some 4, some 5, none] = some (9 / 2) ∧
    calculate_evaluation [none] = none := by
  refine ⟨?_, ?_, rfl⟩
  · intro evals
    constructor
    · rw [calculate_evaluation]
      by_cases h : evals.filterMap id = [] <;> simp [h]
    · intro h
      have hval : calculate_evaluation evals =
          some (pythonRound2
            ((evals.filterMap id).sum / (evals.filterMap id).length)) := by
        rw [calculate_evaluation]
        simp [h]
      refine ⟨hval, ?_⟩
      intro r hr
      rw [hval] at hr
      obtain rfl : r = pythonRound2
          ((evals.filterMap id).sum / (evals.filterMap id).length) :=
        (Option.some_injective _ hr).symm
      exact pythonRound2_close _
  · have h : ([some (4 : ℚ), some 5, none].filterMap id) = [4, 5] := rfl
    rw [calculate_evaluation, h]
    norm_num [pythonRound2, roundHalfEven]

/-- C5 witness: for evaluations `4, 5, null` the stored value `4.5` is
exactly the rounded mean and is within 1/200 of the mean. -/
theorem C5_merge_arithmetic_witness :
    calculate_evaluation [some 4, some 5, none] =
      some (pythonRound2
        (([some (4 : ℚ), some 5, none].filterMap id).sum /
          ([some (4 : ℚ), some 5, none].filterMap id).length)) :=
  ((C5_merge_arithmetic.1 [some 4, some 5, none]).2 (by decide)).1

/-- C6 counterexample: with one contributing pair, `sum_text_blocks`
does not return the pair's evaluation unchanged — a single evaluation
`4.333` comes back as `4.33`, rounded by `calculate_evaluation`. -/
theorem C6_single_pair_cex :
    sumTextBlocks (fun _ => .error ()) [("x", some (4333 / 1000))] =
      .ok ("x", some (433 / 100)) ∧
    some ((433 : ℚ) / 100) ≠ some ((4333 : ℚ) / 1000) := by
  constructor
  · rw [show sumTextBlocks (fun _ => .error ()) [("x", some ((4333 : ℚ) / 1000))] =
        .ok ("x", calculate_evaluation [some (4333 / 1000)]) from rfl]
    have h : ([some ((4333 : ℚ) / 1000)].filterMap id) = [4333 / 1000] := rfl
    rw [calculate_evaluation, h]
    norm_num [pythonRound2, roundHalfEven]
  · intro h
    have := Option.some_injective _ h
    norm_num at this

/-- C6 (amended): with exactly one contributing pair the summarization
collaborator is never consulted — the result is oracle-independent:
the entity-criterion merge stores the pair's text and evaluation
verbatim, and `sum_text_blocks` returns the text unchanged but passes
the evaluation through `calculate_evaluation`, i.e. rounded to two
decimal places rather than unchanged. -/
theorem C6_single_pair_shortcut :
    (∀ (llm llm2 : List String → Except Unit String) (t : String) (e : Option ℚ),
      pythonStrip t ≠ "" →
        sumTextBlocks llm [(t, e)] = .ok (t, calculate_evaluation [e]) ∧
        sumTextBlocks llm [(t, e)] = sumTextBlocks llm2 [(t, e)]) ∧
    (∀ (llm llm2 : Nat → List String → Except Unit String)
        (retries retries2 cid : Nat) (nm : String)
        (existing : Option Criterion) (instances : List Criterion)
        (p : String × Option ℚ),
      collectPairs existing instances = [p] →
        mergeCriterionEntry llm retries cid nm existing instances =
          some ⟨cid, nm, p.1, p.2⟩ ∧
        mergeCriterionEntry llm retries cid nm existing instances =
          mergeCriterionEntry llm2 retries2 cid nm existing instances) := by
  constructor
  · intro llm llm2 t e h
    have hval : ∀ f : List String → Except Unit String,
        sumTextBlocks f [(t, e)] = .ok (t, calculate_evaluation [e]) := by
      intro f
      simp [sumTextBlocks, List.filter, h]
    exact ⟨hval llm, (hval llm).trans (hval llm2).symm⟩
  · intro llm llm2 retries retries2 cid nm existing instances p hp
    have hval : ∀ (f : Nat → List String → Except Unit String) (r : Nat),
        mergeCriterionEntry f r cid nm existing instances =
          some ⟨cid, nm, p.1, p.2⟩ := by
      intro f r
      rw [mergeCriterionEntry, hp]
    exact ⟨hval llm retries, (hval llm retries).trans (hval llm2 retries2).symm⟩

/-- C6 witness: the single pair `("x", 4.5)` is copied verbatim by the
criterion merge and returned by `sum_text_blocks` with its evaluation
rounded (here unchanged, `4.5` having at most two decimals). -/
theorem C6_single_pair_shortcut_witness :
    sumTextBlocks (fun _ => .error ()) [("x", some (9 / 2))] =
      .ok ("x", calculate_evaluation [some (9 / 2)]) ∧
    mergeCriterionEntry (fun _ _ => .error ()) 3 1 "n"
        none [⟨1, "n", "x", some (9 / 2)⟩] = some ⟨1, "n", "x", some (9 / 2)⟩ :=
  ⟨((C6_single_pair_shortcut.1 (fun _ => .error ()) (fun _ => .error ())
      "x" (some (9 / 2))) (by decide)).1,
   ((C6_single_pair_shortcut.2 (fun _ _ => .error ()) (fun _ _ => .error ())
      3 3 1 "n" none [⟨1, "n", "x", some (9 / 2)⟩] ("x", some (9 / 2))) rfl).1⟩

/-- C3 counterexample: a criterion merge that exhausts all its retries
does not leave the entity's existing value untouched.  With the entity
holding `("old", 4)` for criterion 1, one new instance `("new", 5)` and
an LLM that fails every attempt, the write-back replaces the entry by
empty text and null evaluation. -/
theorem C3_fallback_cex :
    applyCriterionMerge (fun _ _ => .error ()) 3
        [⟨1, "n", "old", some 4⟩] 1 "n" [⟨1, "n", "new", some 5⟩] =
      [⟨1, "n", "", none⟩] ∧
    [(⟨1, "n", "", none⟩ : Criterion)] ≠ [⟨1, "n", "old", some 4⟩] :=
  ⟨by decide, by decide⟩

/-- C3 (amended): every summary merge that exhausts its retries falls
back to the first collected summary — the entity's own stripped summary
whenever it was non-blank, the first record's stripped summary otherwise
— but a criterion merge that exhausts its retries replaces the entity's
entry with empty text and null evaluation rather than leaving the
existing value untouched. -/
theorem C3_aggregation_fallback :
    (∀ (llm : Nat → List String → Except Unit String) (retries cid : Nat)
        (nm : String) (existing : Option Criterion) (instances : List Criterion)
        (a b : String × Option ℚ) (rest : List (String × Option ℚ)),
      collectPairs existing instances = a :: b :: rest →
      retrySum llm retries (collectPairs existing instances) = .error () →
        mergeCriterionEntry llm retries cid nm existing instances =
          some ⟨cid, nm, "", none⟩) ∧
    (∀ (llm : Nat → List String → Except Unit String) (retries : Nat)
        (old : String) (summaries : List String),
      2 ≤ summaries.length →
      retrySum llm retries (summaries.map fun s => (s, none)) = .error () →
        updateEntitySummary llm retries old summaries = summaries.headD "") ∧
    (∀ (es : String) (recs : List String),
      pythonStrip es ≠ "" → (summariesFor es recs).headD "" = pythonStrip es) := by
  refine ⟨?_, ?_, ?_⟩
  · intro llm retries cid nm existing instances a b rest hpairs hre
    rw [hpairs] at hre
    rw [mergeCriterionEntry, hpairs]
    simp [hre]
  · intro llm retries old summaries hlen hre
    rw [updateEntitySummary, if_neg (by omega), hre]
  · intro es recs hes
    simp [summariesFor, hes]

/-- C3 witness: the criterion merge at `("old", 4)` plus `("new", 5)`
with an always-failing LLM yields the empty entry; the summary merge of
a blank entity summary with record summaries `r1`, `r2` falls back to
the first collected summary `r1`; and when the entity summary `s1` is
non-blank it is what the collection starts with. -/
theorem C3_aggregation_fallback_witness :
    mergeCriterionEntry (fun _ _ => .error ()) 3 1 "n"
        (some ⟨1, "n", "old", some 4⟩) [⟨1, "n", "new", some 5⟩] =
      some ⟨1, "n", "", none⟩ ∧
    updateEntitySummary (fun _ _ => .error ()) 2 "old"
        (summariesFor " " ["r1", "r2"]) = (summariesFor " " ["r1", "r2"]).headD "" ∧
    (summariesFor "s1" ["s2"]).headD "" = pythonStrip "s1" :=
  ⟨C3_aggregation_fallback.1 (fun _ _ => .error ()) 3 1 "n"
      (some ⟨1, "n", "old", some 4⟩) [⟨1, "n", "new", some 5⟩]
      ("old", some 4) ("new", some 5) [] rfl rfl,
   C3_aggregation_fallback.2.1 (fun _ _ => .error ()) 2 "old"
      (summariesFor " " ["r1", "r2"]) (by decide) rfl,
   C3_aggregation_fallback.2.2 "s1" ["s2"] (by decide)⟩

/-- C7: cleanup gating.  A portal's audio directory is cleaned exactly
when its reported success rate equals 1, and the rate reported by
`update_records_in_database` equals 1 exactly when every record of a
non-empty batch was updated (an empty batch reports 0). -/
theorem C7_cleanup_gating :
    (∀ (stats : List (String × ℚ)) (name : String),
      name ∈ cleanedPortals stats ↔ ∃ r, (name, r) ∈ stats ∧ r = 1) ∧
    (∀ total updated : Nat,
      successRate total updated = 1 ↔ updated = total ∧ 0 < total) := by
  constructor
  · intro stats name
    simp only [cleanedPortals, List.mem_map, List.mem_filter, beq_iff_eq]
    constructor
    · rintro ⟨⟨a, b⟩, ⟨hm, hr⟩, rfl⟩
      exact ⟨b, hm, hr⟩
    · rintro ⟨r, hm, hr⟩
      exact ⟨(name, r), ⟨hm, hr⟩, rfl⟩
  · intro total updated
    by_cases ht : total = 0
    · subst ht
      simp [successRate]
    · have htQ : (total : ℚ) ≠ 0 := Nat.cast_ne_zero.mpr ht
      rw [successRate, if_neg ht, div_eq_iff htQ, one_mul, Nat.cast_inj]
      constructor
      · intro h
        exact ⟨h, Nat.pos_of_ne_zero ht⟩
      · intro h
        exact h.1

/-- C7 witness: a fully successful batch of 2 records rates 1 and the
portal is cleaned; a 1-of-2 batch rates 1/2 and is not. -/
theorem C7_cleanup_gating_witness :
    ("p" ∈ cleanedPortals [("p", successRate 2 2), ("q", successRate 2 1)] ↔
      ∃ r, ("p", r) ∈ [("p", successRate 2 2), ("q", successRate 2 1)] ∧ r = 1) ∧
    (successRate 2 2 = 1 ↔ 2 = 2 ∧ 0 < 2) :=
  ⟨C7_cleanup_gating.1 [("p", successRate 2 2), ("q", successRate 2 1)] "p",
   C7_cleanup_gating.2 2 2⟩

/-- C8: recognition outcome classification.  A record whose audio
metadata misses its uri, encoding, channel count or sample rate is
skipped (no result, nothing written, its stored status untouched); with
complete metadata and a successful recognition the record comes back
with its transcript, marked `empty` exactly when the rebuilt transcript
is empty and `recognized` otherwise. -/
theorem C8_recognition_classification :
    (∀ (recognize : Except Unit (List Utt)) (r : RecRecord),
      (r.audio_metadata.uri = none ∨ r.audio_metadata.encoding = none ∨
       r.audio_metadata.num_channels = none ∨
       r.audio_metadata.sample_rate_hertz = none) →
      process_record recognize r = none) ∧
    (∀ (r : RecRecord) (raw : List Utt),
      metadataIncomplete r.audio_metadata = false →
      process_record (.ok raw) r =
        some { r with
          dialogue := some (build_dialog_from_response raw),
          status := if build_dialog_from_response raw = "" then .empty
                    else .recognized }) := by
  constructor
  · intro recognize r h
    have hinc : metadataIncomplete r.audio_metadata = true := by
      rcases h with h | h | h | h <;> simp [metadataIncomplete, h]
    simp [process_record, hinc]
  · intro r raw h
    by_cases hd : build_dialog_from_response raw = "" <;>
      simp [process_record, h, hd]

/-- C8 witness: a record missing its uri is skipped; a complete record
whose recognition returns a single `hello` utterance comes back
`recognized` with transcript `0: hello`. -/
theorem C8_recognition_classification_witness :
    process_record (.ok [⟨0, 1, ["hello"]⟩])
        ⟨"r1", ⟨none, some "MPEG_AUDIO", some 2, some 8000⟩, none, .uploaded⟩ =
      none ∧
    process_record (.ok [⟨0, 1, ["hello"]⟩])
        ⟨"r2", ⟨some "storage://x", some "MPEG_AUDIO", some 2, some 8000⟩,
          none, .uploaded⟩ =
      some { id := "r2",
             audio_metadata :=
               ⟨some "storage://x", some "MPEG_AUDIO", some 2, some 8000⟩,
             dialogue :=
               some (build_dialog_from_response [⟨0, 1, ["hello"]⟩]),
             status :=
               if build_dialog_from_response [⟨0, 1, ["hello"]⟩] = ""
               then .empty else .recognized } :=
  ⟨C8_recognition_classification.1 (.ok [⟨0, 1, ["hello"]⟩])
      ⟨"r1", ⟨none, some "MPEG_AUDIO", some 2, some 8000⟩, none, .uploaded⟩
      (Or.inl rfl),
   C8_recognition_classification.2
      ⟨"r2", ⟨some "storage://x", some "MPEG_AUDIO", some 2, some 8000⟩,
        none, .uploaded⟩ [⟨0, 1, ["hello"]⟩] (by decide)⟩

/-- C9 counterexample: a store error during the call-record upsert rolls
the batch back but is not surfaced — the function returns the normal
value `[]` (zero updated records), not an error. -/
theorem C9_atomicity_cex :
    upsertRecordsRun (some 0) (fun _ => none) ["a", "b"] =
      ((fun _ => none : Store), .ok []) ∧
    (Except.ok ([] : List String) : Except Unit (List String)) ≠ .error () :=
  ⟨rfl, by intro h; exact Except.noConfusion h⟩

/-- C9 (amended): a store transaction error while persisting a batch
rolls the enclosing transaction back in both writers, so no partial
state of the batch is committed; the dialogue uploader re-raises the
error to the cycle caller, while the call-record upsert swallows it and
reports an empty updated-records list; clean runs commit the whole
batch. -/
theorem C9_store_failure :
    (∀ (k : Nat) (st : Store) (ids : List String), k < ids.length →
      upsertRecordsRun (some k) st ids = (st, .ok [])) ∧
    (∀ (k : Nat) (st : DialogStore) (rows : List DialogRow), k < rows.length →
      uploadRecognizedDialogsRun (some k) st rows = (st, .error ())) ∧
    (∀ (st : Store) (ids : List String),
      upsertRecordsRun none st ids = (upsertBatch st ids, .ok ids)) ∧
    (∀ (st : DialogStore) (rows : List DialogRow),
      uploadRecognizedDialogsRun none st rows =
        (rows.foldl updateDialogOne st, .ok ())) := by
  refine ⟨?_, ?_, fun _ _ => rfl, fun _ _ => rfl⟩
  · intro k st ids h
    simp [upsertRecordsRun, h]
  · intro k st rows h
    simp [uploadRecognizedDialogsRun, h]

/-- C9 witness: a failure at the first statement leaves both stores
untouched; the upsert returns `[]` while the dialogue uploader raises. -/
theorem C9_store_failure_witness :
    upsertRecordsRun (some 0) (fun _ => none) ["a"] =
      ((fun _ => none : Store), .ok []) ∧
    uploadRecognizedDialogsRun (some 0) (fun _ => none)
        [⟨"a", "d", "s", .recognized⟩] =
      ((fun _ => none : DialogStore), .error ()) :=
  ⟨C9_store_failure.1 0 (fun _ => none) ["a"] (by decide),
   C9_store_failure.2.1 0 (fun _ => none) [⟨"a", "d", "s", .recognized⟩]
     (by decide)⟩
